import Mathlib

/-!
Verification of the orchestration logic of the Pipeline-GFS repository
(`pipeline.py`): the freshness gate that decides whether the GFS download
may be skipped, the sequential stage runner with abort-on-first-failure,
the environment-merging rules for the stage subprocesses, and the
zip-and-email delivery stage.

Shallow embedding conventions:
* a filesystem scan result is a list of `FSFile` records (name, mtime);
  mtimes are integer seconds since the Unix epoch, UTC;
* an environment is a map `String → Option String`;
* effects (subprocess launches, archive construction, the SMTP session)
  are recorded as a trace of `Event`s; Python exceptions become values of
  `PipelineError`; subprocess/network outcomes are oracle booleans carried
  by a `World` record.
-/

namespace GFS

/-- A file found by the recursive scan: its base name and its modification
time in integer seconds since the Unix epoch (UTC). -/
structure FSFile where
  name : String
  mtime : Int
deriving Repr, DecidableEq

/-- The filename filter of `_latest_mtime`:
`"grb2" in p.name.lower() or "grib2" in p.name.lower()`. -/
def nameMatchesGrib (name : String) : Bool :=
  decide ("grb2".toList <:+: name.toLower.toList) ||
  decide ("grib2".toList <:+: name.toLower.toList)

/-- Embedding of `_latest_mtime`: collect the mtimes of the files whose
name contains the GRIB marker; `None` when no file matches, otherwise the
maximum mtime (`max(mtimes)`). -/
def latest_mtime (files : List FSFile) : Option Int :=
  match ((files.filter fun f => nameMatchesGrib f.name).map FSFile.mtime) with
  | [] => none
  | m :: ms => some (ms.foldl max m)

/-- The UTC calendar date of a Unix timestamp, as a count of whole days
since the epoch (`datetime.fromtimestamp(ts, tz=utc).date()`). -/
def utcDate (ts : Int) : Int := ts.fdiv 86400

/-- Embedding of `_should_skip_download`.  `now` is the current Unix time
(`datetime.now(tz=utc)`).  Returns `false` ("refresh needed") when no file
matches; otherwise `true` ("skip") iff the latest matching mtime is less
than `max_age_hours * 3600` seconds old or falls on the current UTC date. -/
def should_skip_download (files : List FSFile) (max_age_hours : Int)
    (now : Int) : Bool :=
  match latest_mtime files with
  | none => false
  | some latest =>
    -- fresh_enough || same_day
    decide ((now - latest) < max_age_hours * 3600) ||
    decide (utcDate latest = utcDate now)

/-! ### Environment maps -/

/-- A process environment: a finite map modelled as a lookup function. -/
def EnvMap : Type := String → Option String

/-- Assignment `env[k] = v` on a Python dict. -/
def envSet (e : EnvMap) (k v : String) : EnvMap :=
  fun x => if x = k then some v else e x

/-- Update `env.update(extra)` on a Python dict, with `extra` given as an
association list in insertion order (later entries override earlier ones
and the base map). -/
def envUpdate (e : EnvMap) (extra : List (String × String)) : EnvMap :=
  extra.foldl (fun acc kv => envSet acc kv.1 kv.2) e

/-- The value the last entry of `extra` with key `k` carries, if any:
the value a Python dict built from `extra` holds at `k`. -/
def lookupLast (extra : List (String × String)) (k : String) : Option String :=
  ((extra.filter fun kv => kv.1 == k).getLast?).map Prod.snd

/-! ### Filesystem paths and the zip helper -/

/-- A filesystem path as a list of components; `name` is the final
component (Python `Path.name`). -/
structure FsPath where
  components : List String
deriving Repr, DecidableEq

/-- Python `Path.name`: the final path component. -/
def FsPath.name (p : FsPath) : String := p.components.getLastD ""

/-- Embedding of `_zip_images`: the archive is determined by its entry
names — one entry per path, stored under `arcname=path.name`. -/
def zip_images (image_paths : List FsPath) : List String :=
  image_paths.map FsPath.name

/-! ### Effects, errors and the world -/

/-- Externally observable effects of a pipeline run, in order. -/
inductive Event where
  | downloadProc (env : EnvMap)
  | renderProc (env : EnvMap)
  | zipBuild (entries : List String)
  | smtpSession (server : String) (port : Int) (user : String) (pw : String)

/-- Python exceptions the driver can raise or propagate. -/
inductive PipelineError where
  | valueError (msg : String)
  | fileNotFoundError (msg : String)
  | calledProcessError (script : String)
  | smtpError
deriving Repr, DecidableEq

/-- The ambient state a run executes against: the process environment,
the scan of the data directory, the current time, the base names of the
files in the figure directory at delivery time, and oracle outcomes for
the two subprocesses and the SMTP session. -/
structure World where
  osEnv : EnvMap
  dataFiles : List FSFile
  now : Int
  figFiles : List String
  downloadOk : Bool
  renderOk : Bool
  smtpOk : Bool

/-- The outcome of a (partial) run: the events that occurred, in order,
and the first error raised, if any. -/
def Outcome : Type := List Event × Option PipelineError

/-! ### Stage embeddings -/

/-- Embedding of `run_gfs_download`.  `dataDirResolved` stands for
`str(Path(data_dir).resolve())`.  When the freshness gate says skip and
the force flag is off, nothing happens; otherwise the download subprocess
is launched with the merged environment, and `check=True` raises when the
oracle says the subprocess exited non-zero. -/
def run_gfs_download (w : World) (dataDirResolved : String)
    (gfs_script : String) (extra_env : List (String × String))
    (max_age_hours : Int) (force_download : Bool) : Outcome :=
  if !force_download && should_skip_download w.dataFiles max_age_hours w.now then
    ([], none)
  else
    let env := envUpdate (envSet w.osEnv "DATA_DIR" dataDirResolved) extra_env
    ([Event.downloadProc env],
     if w.downloadOk then none else some (PipelineError.calledProcessError gfs_script))

/-- Embedding of `run_forecast_plot`: always launches the render
subprocess with `INPUT_DIR`/`OUTPUT_DIR` set before the extra-env merge. -/
def run_forecast_plot (w : World) (inputDirResolved outputDirResolved : String)
    (forecast_script : String) (extra_env : List (String × String)) : Outcome :=
  let env := envUpdate
    (envSet (envSet w.osEnv "INPUT_DIR" inputDirResolved)
      "OUTPUT_DIR" outputDirResolved) extra_env
  ([Event.renderProc env],
   if w.renderOk then none else some (PipelineError.calledProcessError forecast_script))

/-- Python truthiness of an optional string: `None` and `""` are falsy. -/
def strFalsy : Option String → Bool
  | none => true
  | some s => s.isEmpty

/-- Python truthiness of an optional list: `None` and `[]` are falsy. -/
def listFalsy : Option (List String) → Bool
  | none => true
  | some l => l.isEmpty

/-- Python `password or os.getenv("EMAIL_PASSWORD")`: the explicit value when it
is truthy (present and non-empty), otherwise the environment lookup. -/
def pyOr (password fallback : Option String) : Option String :=
  match password with
  | none => fallback
  | some s => if s.isEmpty then fallback else some s

/-- The `*.png` glob test on a base filename: the name ends in `.png`. -/
def isPngName (n : String) : Bool := decide (".png".toList <:+ n.toList)

/-- Python `sorted(Path(image_dir).glob("*.png"))`: the files of the figure
directory whose name ends in `.png`, sorted by name, each as the path
`image_dir/<name>`. -/
def glob_png (w : World) (image_dir : String) : List FsPath :=
  (List.insertionSort (fun a b : String => a ≤ b)
      (w.figFiles.filter isPngName)).map
    fun n => FsPath.mk [image_dir, n]

/-- Embedding of `send_images_via_email`.  `image_dir` is the figure
directory (a single path component here). -/
def send_images_via_email (w : World) (image_dir : String)
    (sender : Option String) (recipients : Option (List String))
    (smtp_server : String) (port : Int) (password : Option String) : Outcome :=
  if strFalsy sender || listFalsy recipients then
    ([], some (PipelineError.valueError
      "sender and recipients are required for e-mail sending."))
  else
    match pyOr password (w.osEnv "EMAIL_PASSWORD") with
    | none => ([], some (PipelineError.valueError
        "Set EMAIL_PASSWORD in the environment or pass --password."))
    | some pw =>
      if (glob_png w image_dir).isEmpty then
        ([], some (PipelineError.fileNotFoundError "No PNG files found."))
      else
        ([Event.zipBuild (zip_images (glob_png w image_dir)),
          Event.smtpSession smtp_server port (sender.getD "") pw],
         if w.smtpOk then none else some PipelineError.smtpError)

/-! ### Orchestrator -/

/-- Python `kv.split("=", 1)` when `"=" in kv`: the part before the first `=`
and everything after it; `none` when the string has no `=`. -/
def splitFirstEq : List Char → Option (List Char × List Char)
  | [] => none
  | c :: cs =>
    if c = '=' then some ([], cs)
    else match splitFirstEq cs with
         | none => none
         | some (k, v) => some (c :: k, v)

/-- The `--env` parsing loop of `run_pipeline`: raises `ValueError` at the
first entry with no `=`, otherwise the `KEY=value` pairs in order. -/
def parse_extra_env : List String → Except PipelineError (List (String × String))
  | [] => Except.ok []
  | kv :: rest =>
    match splitFirstEq kv.toList with
    | none => Except.error (PipelineError.valueError
        "Environment variables via --env must be in KEY=value form.")
    | some (k, v) =>
      match parse_extra_env rest with
      | Except.error e => Except.error e
      | Except.ok l => Except.ok ((String.mk k, String.mk v) :: l)

/-- The CLI arguments `run_pipeline` consumes, with the directory paths
already resolved (`str(Path(d).resolve())`). -/
structure Args where
  env : List String
  data_dir : String
  dataDirResolved : String
  fig_dir : String
  figDirResolved : String
  gfs_script : String
  forecast_script : String
  max_age_hours : Int
  force_download : Bool
  send_email : Bool
  sender : Option String
  recipients : Option (List String)
  smtp_server : String
  port : Int
  password : Option String

/-- Sequencing of two exception-raising blocks of straight-line code: when
the first raises, its exception propagates and the continuation never
runs; otherwise the outcome of the continuation follows the events of the first. -/
def seqOutcome (r : Outcome) (k : Unit → Outcome) : Outcome :=
  match r.2 with
  | some e => (r.1, some e)
  | none => (r.1 ++ (k ()).1, (k ()).2)

/-- Embedding of `run_pipeline`: parse `--env`, then run the three stages
strictly in sequence, propagating the first error and starting no further
stage after it.  The e-mail stage runs only under `--send-email`. -/
def run_pipeline (w : World) (a : Args) : Outcome :=
  match parse_extra_env a.env with
  | Except.error e => ([], some e)
  | Except.ok extra_env =>
    seqOutcome (run_gfs_download w a.dataDirResolved a.gfs_script extra_env
        a.max_age_hours a.force_download) fun _ =>
    seqOutcome (run_forecast_plot w a.dataDirResolved a.figDirResolved
        a.forecast_script extra_env) fun _ =>
    if a.send_email then
      send_images_via_email w a.fig_dir a.sender a.recipients
        a.smtp_server a.port a.password
    else
      ([], none)

/-! ### Helper lemmas: folded maximum, latest mtime -/

theorem foldl_max_mem (ms : List Int) : ∀ m : Int, ms.foldl max m ∈ m :: ms := by
  induction ms with
  | nil => intro m; simp
  | cons b bs ih =>
    intro m
    have h := ih (max m b)
    simp only [List.foldl_cons]
    rcases List.mem_cons.mp h with h' | h'
    · rcases max_choice m b with hc | hc <;> rw [h', hc] <;> simp
    · simp [h']

theorem le_foldl_max (ms : List Int) : ∀ m x : Int, x ∈ m :: ms → x ≤ ms.foldl max m := by
  induction ms with
  | nil =>
    intro m x hx
    simp only [List.mem_singleton] at hx
    simp [hx]
  | cons b bs ih =>
    intro m x hx
    simp only [List.foldl_cons]
    have hmb : max m b ≤ bs.foldl max (max m b) :=
      ih (max m b) (max m b) (List.mem_cons_self _ _)
    rcases List.mem_cons.mp hx with h' | h'
    · rw [h']; exact le_trans (le_max_left m b) hmb
    · rcases List.mem_cons.mp h' with h'' | h''
      · rw [h'']; exact le_trans (le_max_right m b) hmb
      · exact ih (max m b) x (List.mem_cons_of_mem _ h'')

theorem latest_mtime_eq_none (files : List FSFile)
    (h : (files.filter fun f => nameMatchesGrib f.name).map FSFile.mtime = []) :
    latest_mtime files = none := by
  unfold latest_mtime
  rw [h]

theorem latest_mtime_eq_max (files : List FSFile) (m0 : Int) (ms : List Int)
    (h : (files.filter fun f => nameMatchesGrib f.name).map FSFile.mtime = m0 :: ms) :
    latest_mtime files = some (ms.foldl max m0) := by
  unfold latest_mtime
  rw [h]

theorem latest_mtime_none_iff (files : List FSFile) :
    latest_mtime files = none ↔ ∀ f ∈ files, nameMatchesGrib f.name = false := by
  rcases hm : (files.filter fun f => nameMatchesGrib f.name).map FSFile.mtime with
      _ | ⟨m, ms⟩
  · rw [latest_mtime_eq_none files hm]
    simp only [List.map_eq_nil_iff, List.filter_eq_nil_iff] at hm
    simp only [true_iff]
    intro f hf
    simpa using hm f hf
  · rw [latest_mtime_eq_max files m ms hm]
    simp only [reduceCtorEq, false_iff, not_forall]
    rcases hfil : files.filter (fun f => nameMatchesGrib f.name) with _ | ⟨g, gs⟩
    · rw [hfil] at hm; cases hm
    · have hg : g ∈ files.filter (fun f => nameMatchesGrib f.name) := by
        rw [hfil]; exact List.mem_cons_self _ _
      have h1 := List.mem_filter.mp hg
      exact ⟨g, h1.1, by simp [h1.2]⟩

theorem latest_mtime_some (files : List FSFile) (m : Int)
    (h : latest_mtime files = some m) :
    (∃ f ∈ files, nameMatchesGrib f.name = true ∧ f.mtime = m) ∧
      ∀ f ∈ files, nameMatchesGrib f.name = true → f.mtime ≤ m := by
  rcases hm : (files.filter fun f => nameMatchesGrib f.name).map FSFile.mtime with
      _ | ⟨m0, ms⟩
  · rw [latest_mtime_eq_none files hm] at h
    exact Option.noConfusion h
  · rw [latest_mtime_eq_max files m0 ms hm] at h
    have hmax : ms.foldl max m0 = m := Option.some.inj h
    constructor
    · have hmem : m ∈ m0 :: ms := hmax ▸ foldl_max_mem ms m0
      rw [← hm] at hmem
      obtain ⟨f, hf, hfm⟩ := List.mem_map.mp hmem
      have h1 := List.mem_filter.mp hf
      exact ⟨f, h1.1, h1.2, hfm⟩
    · intro f hf hfmatch
      have hmem : f.mtime ∈ m0 :: ms := by
        rw [← hm]
        exact List.mem_map_of_mem _ (List.mem_filter.mpr ⟨hf, hfmatch⟩)
      exact hmax ▸ le_foldl_max ms m0 f.mtime hmem

theorem should_skip_download_eq_none (files : List FSFile) (max_age_hours now : Int)
    (h : latest_mtime files = none) :
    should_skip_download files max_age_hours now = false := by
  unfold should_skip_download
  rw [h]

theorem should_skip_download_eq_some (files : List FSFile) (max_age_hours now m : Int)
    (h : latest_mtime files = some m) :
    should_skip_download files max_age_hours now =
      (decide ((now - m) < max_age_hours * 3600) ||
       decide (utcDate m = utcDate now)) := by
  unfold should_skip_download
  rw [h]

/-! ### C1 -/

/-- C1: `_should_skip_download` returns "skip" iff the directory holds at
least one file whose name contains `grb2`/`grib2` (case-insensitively)
and the maximum mtime among such files either is strictly less than
`max_age_hours` hours old or falls on the current UTC calendar date; with no
such file it returns "refresh needed" regardless of the threshold. -/
theorem should_skip_download_iff (files : List FSFile) (max_age_hours now : Int)
    (hpos : 0 < max_age_hours) :
    should_skip_download files max_age_hours now = true ↔
      ∃ f ∈ files, nameMatchesGrib f.name = true ∧
        (∀ g ∈ files, nameMatchesGrib g.name = true → g.mtime ≤ f.mtime) ∧
        (now - f.mtime < max_age_hours * 3600 ∨ utcDate f.mtime = utcDate now) := by
  cases hl : latest_mtime files with
  | none =>
    rw [should_skip_download_eq_none files max_age_hours now hl]
    simp only [Bool.false_eq_true, false_iff]
    rintro ⟨f, hf, hmatch, -⟩
    have := (latest_mtime_none_iff files).mp hl f hf
    rw [hmatch] at this
    cases this
  | some m =>
    rw [should_skip_download_eq_some files max_age_hours now m hl]
    obtain ⟨⟨f, hf, hfm, hfmt⟩, hub⟩ := latest_mtime_some files m hl
    simp only [Bool.or_eq_true, decide_eq_true_eq]
    constructor
    · intro hcond
      refine ⟨f, hf, hfm, fun g hg hgm => ?_, ?_⟩
      · rw [hfmt]; exact hub g hg hgm
      · rw [hfmt]; exact hcond
    · rintro ⟨f', hf', hfm', hub', hcond'⟩
      have h1 : f'.mtime ≤ m := hub f' hf' hfm'
      have h2 : m ≤ f'.mtime := hfmt ▸ hub' f hf hfm
      have heq : f'.mtime = m := le_antisymm h1 h2
      rw [← heq]
      exact hcond'

/-- Witness for C1 at a one-file directory whose file is 1000 s old
against a 1-hour threshold. -/
theorem should_skip_download_iff_witness :
    (0 : Int) < 1 ∧
    (should_skip_download [FSFile.mk "gfs.t00z.pgrb2.0p25.f000" 1000] 1 2000 = true ↔
      ∃ f ∈ [FSFile.mk "gfs.t00z.pgrb2.0p25.f000" 1000], nameMatchesGrib f.name = true ∧
        (∀ g ∈ [FSFile.mk "gfs.t00z.pgrb2.0p25.f000" 1000],
          nameMatchesGrib g.name = true → g.mtime ≤ f.mtime) ∧
        (2000 - f.mtime < 1 * 3600 ∨ utcDate f.mtime = utcDate 2000)) :=
  ⟨by decide, should_skip_download_iff _ 1 2000 (by decide)⟩

/-! ### Environment-map lemmas -/

theorem envSet_self (e : EnvMap) (k v : String) : envSet e k v k = some v := by
  unfold envSet
  simp

theorem envSet_other (e : EnvMap) (k v x : String) (h : x ≠ k) :
    envSet e k v x = e x := by
  unfold envSet
  simp [h]

theorem envUpdate_not_mem : ∀ (extra : List (String × String)) (e : EnvMap) (k : String),
    (∀ kv ∈ extra, kv.1 ≠ k) → envUpdate e extra k = e k := by
  intro extra
  induction extra with
  | nil => intro e k _; rfl
  | cons p rest ih =>
    intro e k h
    have h1 : envUpdate e (p :: rest) = envUpdate (envSet e p.1 p.2) rest := rfl
    rw [h1, ih (envSet e p.1 p.2) k (fun kv hkv => h kv (List.mem_cons_of_mem _ hkv))]
    exact envSet_other e p.1 p.2 k (Ne.symm (h p (List.mem_cons_self _ _)))

theorem envUpdate_lookupLast : ∀ (extra : List (String × String)) (e : EnvMap)
    (k v : String), lookupLast extra k = some v → envUpdate e extra k = some v := by
  intro extra
  induction extra using List.reverseRecOn with
  | nil =>
    intro e k v h
    exact Option.noConfusion h
  | append_singleton l p ih =>
    intro e k v h
    have he : envUpdate e (l ++ [p]) = envSet (envUpdate e l) p.1 p.2 := by
      unfold envUpdate
      rw [List.foldl_append]
      rfl
    unfold lookupLast at h
    rw [List.filter_append] at h
    by_cases hk : p.1 = k
    · have hfp : List.filter (fun kv => kv.1 == k) [p] = [p] := by simp [hk]
      rw [hfp, List.getLast?_concat] at h
      simp only [Option.map_some'] at h
      rw [he, ← hk, envSet_self]
      rw [Option.some.inj h]
    · have hfp : List.filter (fun kv => kv.1 == k) [p] = [] := by simp [hk]
      rw [hfp, List.append_nil] at h
      rw [he, envSet_other _ _ _ _ (Ne.symm hk)]
      exact ih e k v h

/-! ### C2 -/

/-- C2: with the force flag set, `run_gfs_download` never skips — for every
world (in particular whenever the freshness conditions would say "skip"),
its trace is exactly the launch of the download subprocess with the merged
environment. -/
theorem run_gfs_download_force (w : World) (dataDirResolved gfs_script : String)
    (extra_env : List (String × String)) (max_age_hours : Int) :
    (run_gfs_download w dataDirResolved gfs_script extra_env max_age_hours true).1 =
      [Event.downloadProc
        (envUpdate (envSet w.osEnv "DATA_DIR" dataDirResolved) extra_env)] := rfl

/-! ### C9 -/

/-- C9: with no GRIB-marked file in the data directory, `max_age_hours = 6`
and the force flag off, the freshness gate answers "refresh needed" and the
download subprocess is launched with a merged environment whose `DATA_DIR`
is the resolved data-directory path (no caller override of `DATA_DIR`). -/
theorem run_gfs_download_empty_dir (w : World) (dataDirResolved gfs_script : String)
    (extra_env : List (String × String))
    (hempty : ∀ f ∈ w.dataFiles, nameMatchesGrib f.name = false)
    (hextra : ∀ kv ∈ extra_env, kv.1 ≠ "DATA_DIR") :
    should_skip_download w.dataFiles 6 w.now = false ∧
    ∃ env, (run_gfs_download w dataDirResolved gfs_script extra_env 6 false).1 =
        [Event.downloadProc env] ∧ env "DATA_DIR" = some dataDirResolved := by
  have hnone : latest_mtime w.dataFiles = none := (latest_mtime_none_iff _).mpr hempty
  have hskip : should_skip_download w.dataFiles 6 w.now = false :=
    should_skip_download_eq_none _ _ _ hnone
  refine ⟨hskip, envUpdate (envSet w.osEnv "DATA_DIR" dataDirResolved) extra_env,
    ?_, ?_⟩
  · unfold run_gfs_download
    rw [hskip]
    simp
  · rw [envUpdate_not_mem extra_env _ _ hextra, envSet_self]

/-- Witness for C9: a fresh empty world with no extra overrides. -/
theorem run_gfs_download_empty_dir_witness :
    should_skip_download (World.mk (fun _ => none) [] 0 [] true true true).dataFiles 6
      (World.mk (fun _ => none) [] 0 [] true true true).now = false ∧
    ∃ env, (run_gfs_download (World.mk (fun _ => none) [] 0 [] true true true)
        "/abs/DATA" "GFS.py" [] 6 false).1 =
        [Event.downloadProc env] ∧ env "DATA_DIR" = some "/abs/DATA" :=
  run_gfs_download_empty_dir (World.mk (fun _ => none) [] 0 [] true true true)
    "/abs/DATA" "GFS.py" [] (by simp) (by simp)

/-! ### C10 -/

/-- C10: caller-supplied extra environment entries override the
driver-computed path variables: when the extra list carries `DATA_DIR`
(resp. `INPUT_DIR`/`OUTPUT_DIR`), any launched download (resp. render)
subprocess receives the value given by the caller, because the extra-env merge is
applied after the driver sets those variables. -/
theorem extra_env_overrides (w : World)
    (dataDirResolved gfs_script inputDirResolved outputDirResolved forecast_script : String)
    (extra_env : List (String × String)) (max_age_hours : Int) (force_download : Bool) :
    (∀ vd, lookupLast extra_env "DATA_DIR" = some vd →
      ∀ env, Event.downloadProc env ∈
          (run_gfs_download w dataDirResolved gfs_script extra_env
            max_age_hours force_download).1 →
        env "DATA_DIR" = some vd) ∧
    (∀ vi, lookupLast extra_env "INPUT_DIR" = some vi →
      ∀ env, Event.renderProc env ∈
          (run_forecast_plot w inputDirResolved outputDirResolved forecast_script
            extra_env).1 →
        env "INPUT_DIR" = some vi) ∧
    (∀ vo, lookupLast extra_env "OUTPUT_DIR" = some vo →
      ∀ env, Event.renderProc env ∈
          (run_forecast_plot w inputDirResolved outputDirResolved forecast_script
            extra_env).1 →
        env "OUTPUT_DIR" = some vo) := by
  refine ⟨?_, ?_, ?_⟩
  · intro vd hd env henv
    unfold run_gfs_download at henv
    by_cases hc : (!force_download &&
        should_skip_download w.dataFiles max_age_hours w.now) = true
    · rw [if_pos hc] at henv
      simp at henv
    · rw [if_neg hc] at henv
      simp only [List.mem_singleton, Event.downloadProc.injEq] at henv
      rw [henv]
      exact envUpdate_lookupLast extra_env _ _ _ hd
  · intro vi hi env henv
    unfold run_forecast_plot at henv
    simp only [List.mem_singleton, Event.renderProc.injEq] at henv
    rw [henv]
    exact envUpdate_lookupLast extra_env _ _ _ hi
  · intro vo ho env henv
    unfold run_forecast_plot at henv
    simp only [List.mem_singleton, Event.renderProc.injEq] at henv
    rw [henv]
    exact envUpdate_lookupLast extra_env _ _ _ ho

/-- Witness for C10: a caller who overrides only `DATA_DIR` for the
download stage, and a caller who overrides only `INPUT_DIR` and
`OUTPUT_DIR` for the render stage, with both stage invocations
evaluated. -/
theorem extra_env_overrides_witness :
    envUpdate (envSet (fun _ => none) "DATA_DIR" "/abs/DATA")
      [("DATA_DIR", "X")] "DATA_DIR" = some "X" ∧
    envUpdate (envSet (envSet (fun _ => none) "INPUT_DIR" "/abs/DATA")
        "OUTPUT_DIR" "/abs/FIGS")
      [("INPUT_DIR", "Y"), ("OUTPUT_DIR", "Z")] "INPUT_DIR" = some "Y" ∧
    envUpdate (envSet (envSet (fun _ => none) "INPUT_DIR" "/abs/DATA")
        "OUTPUT_DIR" "/abs/FIGS")
      [("INPUT_DIR", "Y"), ("OUTPUT_DIR", "Z")] "OUTPUT_DIR" = some "Z" := by
  have h1 := extra_env_overrides (World.mk (fun _ => none) [] 0 [] true true true)
    "/abs/DATA" "GFS.py" "/abs/DATA" "/abs/FIGS" "forecast.py"
    [("DATA_DIR", "X")] 6 true
  have h2 := extra_env_overrides (World.mk (fun _ => none) [] 0 [] true true true)
    "/abs/DATA" "GFS.py" "/abs/DATA" "/abs/FIGS" "forecast.py"
    [("INPUT_DIR", "Y"), ("OUTPUT_DIR", "Z")] 6 true
  refine ⟨h1.1 "X" rfl _ ?_, h2.2.1 "Y" rfl _ ?_, h2.2.2 "Z" rfl _ ?_⟩
  · exact List.mem_singleton.mpr rfl
  · exact List.mem_singleton.mpr rfl
  · exact List.mem_singleton.mpr rfl

/-! ### Stage-outcome equations -/

theorem run_gfs_download_skip_eq (w : World) (d g : String)
    (extra : List (String × String)) (maxAge : Int) (force : Bool)
    (h : (!force && should_skip_download w.dataFiles maxAge w.now) = true) :
    run_gfs_download w d g extra maxAge force = ([], none) := by
  unfold run_gfs_download
  rw [if_pos h]

theorem run_gfs_download_run_eq (w : World) (d g : String)
    (extra : List (String × String)) (maxAge : Int) (force : Bool)
    (h : (!force && should_skip_download w.dataFiles maxAge w.now) = false) :
    run_gfs_download w d g extra maxAge force =
      ([Event.downloadProc (envUpdate (envSet w.osEnv "DATA_DIR" d) extra)],
       if w.downloadOk then none else some (PipelineError.calledProcessError g)) := by
  unfold run_gfs_download
  rw [if_neg (by simp [h])]

theorem run_forecast_plot_eq (w : World) (i o f : String)
    (extra : List (String × String)) :
    run_forecast_plot w i o f extra =
      ([Event.renderProc (envUpdate
          (envSet (envSet w.osEnv "INPUT_DIR" i) "OUTPUT_DIR" o) extra)],
       if w.renderOk then none else some (PipelineError.calledProcessError f)) := rfl

theorem seqOutcome_error (r : Outcome) (k : Unit → Outcome) (e : PipelineError)
    (h : r.2 = some e) : seqOutcome r k = (r.1, some e) := by
  unfold seqOutcome
  rw [h]

theorem seqOutcome_ok (r : Outcome) (k : Unit → Outcome)
    (h : r.2 = none) : seqOutcome r k = (r.1 ++ (k ()).1, (k ()).2) := by
  unfold seqOutcome
  rw [h]

/-- Every event the delivery stage can emit is an archive build or an
SMTP session. -/
theorem send_images_events_shape (w : World) (image_dir : String)
    (sender : Option String) (recipients : Option (List String))
    (server : String) (port : Int) (password : Option String) :
    ∀ ev ∈ (send_images_via_email w image_dir sender recipients server port
        password).1,
      (∃ entries, ev = Event.zipBuild entries) ∨
      (∃ s p u pw, ev = Event.smtpSession s p u pw) := by
  intro ev hev
  unfold send_images_via_email at hev
  split at hev
  · simp at hev
  · split at hev
    · simp at hev
    · split at hev
      · simp at hev
      · simp only [List.mem_cons, List.mem_singleton, List.not_mem_nil,
          or_false] at hev
        rcases hev with h | h
        · exact Or.inl ⟨_, h⟩
        · exact Or.inr ⟨_, _, _, _, h⟩

/-! ### C4 -/

theorem splitFirstEq_eq_none : ∀ l : List Char, '=' ∉ l → splitFirstEq l = none := by
  intro l
  induction l with
  | nil => intro _; rfl
  | cons c cs ih =>
    intro h
    unfold splitFirstEq
    have hc : ¬(c = '=') := fun he => h (he ▸ List.mem_cons_self _ _)
    rw [if_neg hc, ih (fun hm => h (List.mem_cons_of_mem _ hm))]

theorem parse_extra_env_error : ∀ (l : List String) (kv : String), kv ∈ l →
    '=' ∉ kv.toList →
    parse_extra_env l = Except.error (PipelineError.valueError
      "Environment variables via --env must be in KEY=value form.") := by
  intro l
  induction l with
  | nil => intro kv h; cases h
  | cons a rest ih =>
    intro kv hmem hkv
    rcases List.mem_cons.mp hmem with h1 | h1
    · subst h1
      unfold parse_extra_env
      rw [splitFirstEq_eq_none _ hkv]
    · unfold parse_extra_env
      cases hs : splitFirstEq a.toList with
      | none => rfl
      | some p =>
        obtain ⟨k, v⟩ := p
        rw [ih kv h1 hkv]

/-- C4: if any caller-supplied `--env` entry has no `=`, `run_pipeline`
raises the `ValueError` for malformed environment overrides with no event
having occurred — before any stage subprocess and any external effect. -/
theorem run_pipeline_malformed_env (w : World) (a : Args) (kv : String)
    (hmem : kv ∈ a.env) (hkv : '=' ∉ kv.toList) :
    (run_pipeline w a).1 = [] ∧
    (run_pipeline w a).2 = some (PipelineError.valueError
      "Environment variables via --env must be in KEY=value form.") := by
  have hp := parse_extra_env_error a.env kv hmem hkv
  unfold run_pipeline
  rw [hp]
  exact ⟨rfl, rfl⟩

/-- Witness for C4: a single `--env` entry `FOO` with no `=`. -/
theorem run_pipeline_malformed_env_witness :
    (run_pipeline (World.mk (fun _ => none) [] 0 [] true true true)
      (Args.mk ["FOO"] "DATA" "/abs/DATA" "FIGS" "/abs/FIGS" "GFS.py"
        "forecast.py" 6 false false none none "smtp.gmail.com" 465 none)).1 = [] ∧
    (run_pipeline (World.mk (fun _ => none) [] 0 [] true true true)
      (Args.mk ["FOO"] "DATA" "/abs/DATA" "FIGS" "/abs/FIGS" "GFS.py"
        "forecast.py" 6 false false none none "smtp.gmail.com" 465 none)).2 =
      some (PipelineError.valueError
        "Environment variables via --env must be in KEY=value form.") :=
  run_pipeline_malformed_env _ _ "FOO" (List.mem_singleton.mpr rfl) (by decide)

/-! ### C5 -/

/-- C5: a missing/empty sender, a missing/empty recipient list, or the
absence of a usable credential (explicit parameter, with the
`EMAIL_PASSWORD` fallback) makes `send_images_via_email` raise a
`ValueError` with an empty trace — no archive is built and no SMTP
connection is attempted. -/
theorem send_email_config_error (w : World) (image_dir : String)
    (sender : Option String) (recipients : Option (List String))
    (server : String) (port : Int) (password : Option String)
    (h : strFalsy sender = true ∨ listFalsy recipients = true ∨
      pyOr password (w.osEnv "EMAIL_PASSWORD") = none) :
    (send_images_via_email w image_dir sender recipients server port
      password).1 = [] ∧
    ∃ msg, (send_images_via_email w image_dir sender recipients server port
      password).2 = some (PipelineError.valueError msg) := by
  unfold send_images_via_email
  by_cases hsr : (strFalsy sender || listFalsy recipients) = true
  · rw [if_pos hsr]
    exact ⟨rfl, _, rfl⟩
  · rw [if_neg hsr]
    have hpw : pyOr password (w.osEnv "EMAIL_PASSWORD") = none := by
      rcases h with h1 | h1 | h1
      · exact absurd (by rw [h1]; simp : (strFalsy sender ||
          listFalsy recipients) = true) hsr
      · exact absurd (by rw [h1]; simp : (strFalsy sender ||
          listFalsy recipients) = true) hsr
      · exact h1
    rw [hpw]
    exact ⟨rfl, _, rfl⟩

/-- Witness for C5: sender absent. -/
theorem send_email_config_error_witness :
    (send_images_via_email (World.mk (fun _ => none) [] 0 [] true true true)
      "FIGS" none (some ["r@example.com"]) "smtp.gmail.com" 465 none).1 = [] ∧
    ∃ msg, (send_images_via_email (World.mk (fun _ => none) [] 0 [] true true true)
      "FIGS" none (some ["r@example.com"]) "smtp.gmail.com" 465 none).2 =
      some (PipelineError.valueError msg) :=
  send_email_config_error _ "FIGS" none (some ["r@example.com"])
    "smtp.gmail.com" 465 none (Or.inl rfl)

/-! ### C6 -/

/-- C6: with the configuration checks satisfied but no `.png` file in the
image directory, `send_images_via_email` raises `FileNotFoundError` with
an empty trace — before any archive is built and any network activity. -/
theorem send_email_no_png (w : World) (image_dir : String)
    (sender : Option String) (recipients : Option (List String))
    (server : String) (port : Int) (password : Option String)
    (hs : strFalsy sender = false) (hr : listFalsy recipients = false)
    (hpw : pyOr password (w.osEnv "EMAIL_PASSWORD") ≠ none)
    (hpng : w.figFiles.filter isPngName = []) :
    send_images_via_email w image_dir sender recipients server port password =
      ([], some (PipelineError.fileNotFoundError "No PNG files found.")) := by
  unfold send_images_via_email
  rw [hs, hr]
  rw [if_neg (by simp)]
  cases hp : pyOr password (w.osEnv "EMAIL_PASSWORD") with
  | none => exact absurd hp hpw
  | some pw =>
    have hge : glob_png w image_dir = [] := by
      unfold glob_png
      rw [hpng]
      rfl
    rw [hge]
    rfl

/-- Witness for C6: an image directory with no files at all. -/
theorem send_email_no_png_witness :
    send_images_via_email (World.mk (fun _ => none) [] 0 [] true true true)
      "FIGS" (some "sender@example.com") (some ["r@example.com"])
      "smtp.gmail.com" 465 (some "token") =
      ([], some (PipelineError.fileNotFoundError "No PNG files found.")) :=
  send_email_no_png _ "FIGS" (some "sender@example.com") (some ["r@example.com"])
    "smtp.gmail.com" 465 (some "token") rfl rfl (by decide) rfl

/-! ### Delivery success evaluation -/

theorem send_images_success (w : World) (image_dir : String)
    (sender : Option String) (recipients : Option (List String))
    (server : String) (port : Int) (password : Option String) (pw : String)
    (hs : strFalsy sender = false) (hr : listFalsy recipients = false)
    (hpw : pyOr password (w.osEnv "EMAIL_PASSWORD") = some pw)
    (hpng : glob_png w image_dir ≠ []) :
    send_images_via_email w image_dir sender recipients server port password =
      ([Event.zipBuild (zip_images (glob_png w image_dir)),
        Event.smtpSession server port (sender.getD "") pw],
       if w.smtpOk then none else some PipelineError.smtpError) := by
  unfold send_images_via_email
  rw [hs, hr]
  rw [if_neg (by simp), hpw]
  show (if (glob_png w image_dir).isEmpty = true then
      ([], some (PipelineError.fileNotFoundError "No PNG files found."))
    else
      ([Event.zipBuild (zip_images (glob_png w image_dir)),
        Event.smtpSession server port (sender.getD "") pw],
       if w.smtpOk then none else some PipelineError.smtpError)) = _
  have hne : ¬((glob_png w image_dir).isEmpty = true) := by
    simp [List.isEmpty_iff, hpng]
  rw [if_neg hne]

theorem FsPath_name_pair (d n : String) : FsPath.name (FsPath.mk [d, n]) = n := rfl

/-- The entry list of the archive is the sorted `.png` name list: one entry
per png file, under its base filename. -/
theorem zip_images_glob_png (w : World) (image_dir : String) :
    zip_images (glob_png w image_dir) =
      List.insertionSort (fun a b : String => a ≤ b)
        (w.figFiles.filter isPngName) := by
  unfold zip_images glob_png
  rw [List.map_map]
  have hcomp : (FsPath.name ∘ fun n => FsPath.mk [image_dir, n]) =
      fun n : String => n := funext fun n => rfl
  rw [hcomp, List.map_id']

/-! ### C7 -/

/-- C7: when delivery proceeds, the archive built holds exactly one entry
per `.png` file present in the image directory at invocation time, each
entry being the base filename of the file (no directory prefix): the
entry list is a permutation of the png name list of the directory. -/
theorem send_email_zip_entries (w : World) (image_dir : String)
    (sender : Option String) (recipients : Option (List String))
    (server : String) (port : Int) (password : Option String) (pw : String)
    (hs : strFalsy sender = false) (hr : listFalsy recipients = false)
    (hpw : pyOr password (w.osEnv "EMAIL_PASSWORD") = some pw)
    (hpng : w.figFiles.filter isPngName ≠ []) :
    ∃ entries, Event.zipBuild entries ∈
        (send_images_via_email w image_dir sender recipients server port
          password).1 ∧
      entries.Perm (w.figFiles.filter isPngName) := by
  have hg : glob_png w image_dir ≠ [] := by
    unfold glob_png
    intro hcon
    rw [List.map_eq_nil_iff] at hcon
    have hperm := List.perm_insertionSort (fun a b : String => a ≤ b)
      (w.figFiles.filter isPngName)
    rw [hcon] at hperm
    exact hpng hperm.symm.eq_nil
  rw [send_images_success w image_dir sender recipients server port password pw
    hs hr hpw hg]
  refine ⟨zip_images (glob_png w image_dir), List.mem_cons_self _ _, ?_⟩
  rw [zip_images_glob_png]
  exact List.perm_insertionSort _ _

/-- Witness for C7: a directory holding `a.png` and `b.png` (and a
non-png file, which the glob ignores). -/
theorem send_email_zip_entries_witness :
    ∃ entries, Event.zipBuild entries ∈
        (send_images_via_email
          (World.mk (fun _ => none) [] 0 ["b.png", "notes.txt", "a.png"]
            true true true)
          "FIGS" (some "sender@example.com") (some ["r@example.com"])
          "smtp.gmail.com" 465 (some "token")).1 ∧
      entries.Perm ((World.mk (fun _ => none) [] 0 ["b.png", "notes.txt", "a.png"]
          true true true).figFiles.filter isPngName) :=
  send_email_zip_entries _ "FIGS" (some "sender@example.com")
    (some ["r@example.com"]) "smtp.gmail.com" 465 (some "token") "token"
    rfl rfl (by decide) (by decide)

/-! ### C8 -/

/-- Counterexample to C8 as stated: the explicitly supplied password `""`
is not the credential used — with `EMAIL_PASSWORD=envsecret` set, the SMTP
session authenticates with `envsecret` (Python `password or os.getenv(...)`
treats the empty string as absent). -/
theorem send_email_password_empty_counterexample :
    Event.smtpSession "smtp.gmail.com" 465 "sender@example.com" "" ∉
      (send_images_via_email
        (World.mk (fun k => if k = "EMAIL_PASSWORD" then some "envsecret" else none)
          [] 0 ["a.png"] true true true)
        "FIGS" (some "sender@example.com") (some ["r@example.com"])
        "smtp.gmail.com" 465 (some "")).1 ∧
    Event.smtpSession "smtp.gmail.com" 465 "sender@example.com" "envsecret" ∈
      (send_images_via_email
        (World.mk (fun k => if k = "EMAIL_PASSWORD" then some "envsecret" else none)
          [] 0 ["a.png"] true true true)
        "FIGS" (some "sender@example.com") (some ["r@example.com"])
        "smtp.gmail.com" 465 (some "")).1 := by
  rw [send_images_success _ "FIGS" (some "sender@example.com")
    (some ["r@example.com"]) "smtp.gmail.com" 465 (some "") "envsecret"
    rfl rfl (by decide) (by decide)]
  constructor
  · intro hmem
    simp at hmem
  · simp

/-- C8 (amended): the credential used for SMTP authentication is the
explicitly supplied password whenever a non-empty one is supplied; the
`EMAIL_PASSWORD` environment value is used when the explicit password is
absent or empty. -/
theorem send_email_credential_priority (w : World) (image_dir : String)
    (sender : Option String) (recipients : Option (List String))
    (server : String) (port : Int) (password : Option String)
    (hs : strFalsy sender = false) (hr : listFalsy recipients = false)
    (hpng : glob_png w image_dir ≠ []) :
    (∀ p, password = some p → p.isEmpty = false →
      Event.smtpSession server port (sender.getD "") p ∈
        (send_images_via_email w image_dir sender recipients server port
          password).1) ∧
    (∀ epw, (password = none ∨ password = some "") →
      w.osEnv "EMAIL_PASSWORD" = some epw →
      Event.smtpSession server port (sender.getD "") epw ∈
        (send_images_via_email w image_dir sender recipients server port
          password).1) := by
  constructor
  · intro p hp hne
    have hpw : pyOr password (w.osEnv "EMAIL_PASSWORD") = some p := by
      rw [hp]
      simp [pyOr, hne]
    rw [send_images_success w image_dir sender recipients server port password p
      hs hr hpw hpng]
    simp
  · intro epw hp henv
    have hpw : pyOr password (w.osEnv "EMAIL_PASSWORD") = some epw := by
      have he : ("" : String).isEmpty = true := rfl
      rcases hp with h | h <;> rw [h] <;> simp [pyOr, he, henv]
    rw [send_images_success w image_dir sender recipients server port password
      epw hs hr hpw hpng]
    simp

/-- Witness for amended C8: a non-empty explicit password is the one used;
with no explicit password the environment credential is the one used. -/
theorem send_email_credential_priority_witness :
    Event.smtpSession "smtp.gmail.com" 465 "sender@example.com" "tok" ∈
      (send_images_via_email
        (World.mk (fun k => if k = "EMAIL_PASSWORD" then some "envsecret" else none)
          [] 0 ["a.png"] true true true)
        "FIGS" (some "sender@example.com") (some ["r@example.com"])
        "smtp.gmail.com" 465 (some "tok")).1 ∧
    Event.smtpSession "smtp.gmail.com" 465 "sender@example.com" "envsecret" ∈
      (send_images_via_email
        (World.mk (fun k => if k = "EMAIL_PASSWORD" then some "envsecret" else none)
          [] 0 ["a.png"] true true true)
        "FIGS" (some "sender@example.com") (some ["r@example.com"])
        "smtp.gmail.com" 465 none).1 :=
  ⟨(send_email_credential_priority _ "FIGS" (some "sender@example.com")
      (some ["r@example.com"]) "smtp.gmail.com" 465 (some "tok")
      rfl rfl (by decide)).1 "tok" rfl rfl,
   (send_email_credential_priority _ "FIGS" (some "sender@example.com")
      (some ["r@example.com"]) "smtp.gmail.com" 465 none
      rfl rfl (by decide)).2 "envsecret" (Or.inl rfl) (by decide)⟩

/-! ### C3 -/

theorem seqOutcome_mem (r : Outcome) (k : Unit → Outcome) (ev : Event)
    (h : ev ∈ (seqOutcome r k).1) : ev ∈ r.1 ∨ ev ∈ (k ()).1 := by
  unfold seqOutcome at h
  cases hr : r.2 with
  | some e =>
    rw [hr] at h
    exact Or.inl h
  | none =>
    rw [hr] at h
    exact List.mem_append.mp h

/-- C3: stage N+1 never starts after stage N fails — a download-subprocess
failure leaves the render and e-mail stages unstarted and is the
propagated error of the pipeline; a render-subprocess failure leaves the
e-mail stage unstarted and is the propagated error. -/
theorem run_pipeline_stage_sequencing (w : World) (a : Args) :
    ((w.downloadOk = false ∧
        ∃ env, Event.downloadProc env ∈ (run_pipeline w a).1) →
      (∀ env, Event.renderProc env ∉ (run_pipeline w a).1) ∧
      (∀ entries, Event.zipBuild entries ∉ (run_pipeline w a).1) ∧
      (∀ s p u pw, Event.smtpSession s p u pw ∉ (run_pipeline w a).1) ∧
      (run_pipeline w a).2 =
        some (PipelineError.calledProcessError a.gfs_script)) ∧
    ((w.renderOk = false ∧
        ∃ env, Event.renderProc env ∈ (run_pipeline w a).1) →
      (∀ entries, Event.zipBuild entries ∉ (run_pipeline w a).1) ∧
      (∀ s p u pw, Event.smtpSession s p u pw ∉ (run_pipeline w a).1) ∧
      (run_pipeline w a).2 =
        some (PipelineError.calledProcessError a.forecast_script)) := by
  constructor
  · rintro ⟨hdl, env, henv⟩
    cases hpe : parse_extra_env a.env with
    | error e =>
      have hrp : run_pipeline w a = ([], some e) := by
        unfold run_pipeline
        rw [hpe]
      rw [hrp] at henv
      simp at henv
    | ok extra =>
      have hrp : run_pipeline w a =
          seqOutcome (run_gfs_download w a.dataDirResolved a.gfs_script extra
            a.max_age_hours a.force_download) fun _ =>
          seqOutcome (run_forecast_plot w a.dataDirResolved a.figDirResolved
            a.forecast_script extra) fun _ =>
          if a.send_email then
            send_images_via_email w a.fig_dir a.sender a.recipients
              a.smtp_server a.port a.password
          else ([], none) := by
        unfold run_pipeline
        rw [hpe]
      cases hskip : (!a.force_download &&
          should_skip_download w.dataFiles a.max_age_hours w.now) with
      | true =>
        exfalso
        rw [run_gfs_download_skip_eq _ _ _ _ _ _ hskip,
          seqOutcome_ok _ _ rfl] at hrp
        rw [hrp] at henv
        simp only [List.nil_append] at henv
        rcases seqOutcome_mem _ _ _ henv with h2 | h3
        · rw [run_forecast_plot_eq] at h2
          simp at h2
        · rcases hsend : a.send_email with _ | _ <;> rw [hsend] at h3
          · simp at h3
          · rcases send_images_events_shape _ _ _ _ _ _ _ _ h3 with
              ⟨entries, hsh⟩ | ⟨s, p, u, pw, hsh⟩ <;> cases hsh
      | false =>
        have h1 := run_gfs_download_run_eq w a.dataDirResolved a.gfs_script
          extra a.max_age_hours a.force_download hskip
        rw [hdl] at h1
        simp only [Bool.false_eq_true, if_false] at h1
        rw [h1, seqOutcome_error _ _ _ rfl] at hrp
        rw [hrp]
        refine ⟨?_, ?_, ?_, rfl⟩
        · intro env' hmem
          simp at hmem
        · intro entries hmem
          simp at hmem
        · intro s p u pw hmem
          simp at hmem
  · rintro ⟨hrl, env, henv⟩
    cases hpe : parse_extra_env a.env with
    | error e =>
      have hrp : run_pipeline w a = ([], some e) := by
        unfold run_pipeline
        rw [hpe]
      rw [hrp] at henv
      simp at henv
    | ok extra =>
      have hrp : run_pipeline w a =
          seqOutcome (run_gfs_download w a.dataDirResolved a.gfs_script extra
            a.max_age_hours a.force_download) fun _ =>
          seqOutcome (run_forecast_plot w a.dataDirResolved a.figDirResolved
            a.forecast_script extra) fun _ =>
          if a.send_email then
            send_images_via_email w a.fig_dir a.sender a.recipients
              a.smtp_server a.port a.password
          else ([], none) := by
        unfold run_pipeline
        rw [hpe]
      have h2 : run_forecast_plot w a.dataDirResolved a.figDirResolved
          a.forecast_script extra =
          ([Event.renderProc (envUpdate
            (envSet (envSet w.osEnv "INPUT_DIR" a.dataDirResolved)
              "OUTPUT_DIR" a.figDirResolved) extra)],
           some (PipelineError.calledProcessError a.forecast_script)) := by
        rw [run_forecast_plot_eq, hrl]
        simp
      cases hskip : (!a.force_download &&
          should_skip_download w.dataFiles a.max_age_hours w.now) with
      | true =>
        rw [run_gfs_download_skip_eq _ _ _ _ _ _ hskip,
          seqOutcome_ok _ _ rfl] at hrp
        simp only [List.nil_append] at hrp
        rw [h2, seqOutcome_error _ _ _ rfl] at hrp
        rw [hrp]
        refine ⟨?_, ?_, rfl⟩
        · intro entries hmem
          simp at hmem
        · intro s p u pw hmem
          simp at hmem
      | false =>
        have h1 := run_gfs_download_run_eq w a.dataDirResolved a.gfs_script
          extra a.max_age_hours a.force_download hskip
        cases hdok : w.downloadOk with
        | false =>
          exfalso
          rw [hdok] at h1
          simp only [Bool.false_eq_true, if_false] at h1
          rw [h1, seqOutcome_error _ _ _ rfl] at hrp
          rw [hrp] at henv
          simp at henv
        | true =>
          rw [hdok] at h1
          simp only [if_true] at h1
          rw [h1, seqOutcome_ok _ _ rfl] at hrp
          rw [h2, seqOutcome_error _ _ _ rfl] at hrp
          rw [hrp]
          refine ⟨?_, ?_, rfl⟩
          · intro entries hmem
            simp at hmem
          · intro s p u pw hmem
            simp at hmem

/-- Witness for C3: a world whose download subprocess fails (left part)
and one whose render subprocess fails (right part), with empty data
directories so the download is attempted. -/
theorem run_pipeline_stage_sequencing_witness :
    (Event.renderProc (fun _ => none) ∉
      (run_pipeline (World.mk (fun _ => none) [] 0 [] false true true)
        (Args.mk [] "DATA" "/abs/DATA" "FIGS" "/abs/FIGS" "GFS.py"
          "forecast.py" 6 false true (some "s@example.com")
          (some ["r@example.com"]) "smtp.gmail.com" 465 (some "tok"))).1 ∧
     (run_pipeline (World.mk (fun _ => none) [] 0 [] false true true)
        (Args.mk [] "DATA" "/abs/DATA" "FIGS" "/abs/FIGS" "GFS.py"
          "forecast.py" 6 false true (some "s@example.com")
          (some ["r@example.com"]) "smtp.gmail.com" 465 (some "tok"))).2 =
        some (PipelineError.calledProcessError "GFS.py")) ∧
    ((∀ s p u pw, Event.smtpSession s p u pw ∉
      (run_pipeline (World.mk (fun _ => none) [] 0 ["a.png"] true false true)
        (Args.mk [] "DATA" "/abs/DATA" "FIGS" "/abs/FIGS" "GFS.py"
          "forecast.py" 6 false true (some "s@example.com")
          (some ["r@example.com"]) "smtp.gmail.com" 465 (some "tok"))).1) ∧
     (run_pipeline (World.mk (fun _ => none) [] 0 ["a.png"] true false true)
        (Args.mk [] "DATA" "/abs/DATA" "FIGS" "/abs/FIGS" "GFS.py"
          "forecast.py" 6 false true (some "s@example.com")
          (some ["r@example.com"]) "smtp.gmail.com" 465 (some "tok"))).2 =
        some (PipelineError.calledProcessError "forecast.py")) := by
  constructor
  · have h := (run_pipeline_stage_sequencing
      (World.mk (fun _ => none) [] 0 [] false true true)
      (Args.mk [] "DATA" "/abs/DATA" "FIGS" "/abs/FIGS" "GFS.py"
        "forecast.py" 6 false true (some "s@example.com")
        (some ["r@example.com"]) "smtp.gmail.com" 465 (some "tok"))).1
      ⟨rfl, envUpdate (envSet (fun _ => none) "DATA_DIR" "/abs/DATA") [],
        List.mem_singleton.mpr rfl⟩
    exact ⟨h.1 _, h.2.2.2⟩
  · have h := (run_pipeline_stage_sequencing
      (World.mk (fun _ => none) [] 0 ["a.png"] true false true)
      (Args.mk [] "DATA" "/abs/DATA" "FIGS" "/abs/FIGS" "GFS.py"
        "forecast.py" 6 false true (some "s@example.com")
        (some ["r@example.com"]) "smtp.gmail.com" 465 (some "tok"))).2
      ⟨rfl, envUpdate (envSet (envSet (fun _ => none) "INPUT_DIR" "/abs/DATA")
          "OUTPUT_DIR" "/abs/FIGS") [],
        List.mem_cons_of_mem _ (List.mem_singleton.mpr rfl)⟩
    exact ⟨h.2.1, h.2.2⟩

end GFS
